import Mathlib

/-!
# Verification of the live-monitoring event engine

Shallow embedding of `src/live_monitoring_bot.py` (class `LiveMonitoringBot`):
the event extraction, team attribution, progressive score calculation,
notification deduplication, dispatch and terminal-status cleanup logic.

Modelling conventions:
* Python dictionary fields that may be absent or `None` are modelled as
  `Option` fields (absence and `None` are conflated; the code only ever reads
  them through `.get(...)`, which returns `None` in both cases — except for the
  string-default `.get(key, default)` reads, where a present `None` value would
  bypass the default; no claim depends on that distinction).
* Python truthiness (`if x:` / `x or y`) on optional integers and strings is
  modelled by `truthyN` / `truthyS` / `pyOrN` / `orZero`.
* Python `dict` is modelled as an association list where later writes are
  prepended, so that lookup (first match) sees the last write, as a dict does.
* The wall-clock date used in message templates and the Telegram transport
  (which may raise, the exception being caught inside
  `send_telegram_message`) are passed in as explicit parameters
  (`dateStr`, `sendFail`, `botReady`); no other behaviour depends on them.
-/

/-- Python truthiness of an optional integer: `None` and `0` are falsy. -/
def truthyN : Option Nat → Bool
  | some n => n != 0
  | none => false

/-- Python truthiness of an optional string: `None` and `""` are falsy. -/
def truthyS : Option String → Bool
  | some s => s != ""
  | none => false

/-- Python `a or b` on optional integers. -/
def pyOrN (a b : Option Nat) : Option Nat :=
  if truthyN a then a else b

/-- Python `x or 0` on an optional integer. -/
def orZero (a : Option Nat) : Nat :=
  if truthyN a then a.getD 0 else 0

/-- Association-list dictionary lookup (`d.get(k)`), first binding wins. -/
def dGet {K V : Type} [DecidableEq K] (m : List (K × V)) (k : K) : Option V :=
  (m.find? (fun kv => kv.1 = k)).map (fun kv => kv.2)

/-- Dictionary write `d[k] = v`: prepend, so lookup sees the newest binding. -/
def dInsert {K V : Type} (m : List (K × V)) (k : K) (v : V) : List (K × V) :=
  (k, v) :: m

/-- Dictionary `d.pop(k, None)`: remove every binding of `k`. -/
def dErase {K V : Type} [DecidableEq K] (m : List (K × V)) (k : K) : List (K × V) :=
  m.filter (fun kv => !(decide (kv.1 = k)))

/-- One entry of a match's `participants` list.  `name` models
`participant['name']` (the code indexes it or defaults it to `'Ismeretlen'`);
`location` is `participant['meta']['location']`, `score` is
`participant['meta'].get('score', 0)`. -/
structure Participant where
  id : Option Nat
  name : String
  location : Option String
  score : Option Nat
deriving Repr, DecidableEq

/-- A raw sub-event record inside `match['events']`. -/
structure RawEvent where
  id : Option Nat
  type_id : Option Nat
  minute : Option Nat
  extra_minute : Option Nat
  result : Option String
  team_id : Option Nat
  participant_id : Option Nat
  location : Option String
  player_id : Option Nat
  player_name : Option String
  team_name : Option String
deriving Repr, DecidableEq

/-- One player entry of a lineup: `player_data['player']['name'] / ['id']`. -/
structure LineupPlayer where
  name : Option String
  id : Option Nat
deriving Repr, DecidableEq

/-- One entry of `match['lineups']`. -/
structure Lineup where
  participant_id : Option Nat
  participant_name : Option String
  players : List LineupPlayer
deriving Repr, DecidableEq

/-- Model of `match['state']`: the match clock. -/
structure MatchState where
  minute : Option Nat
  added_time : Option Nat
  period : Option String
  status : Option String
deriving Repr, DecidableEq

/-- One entry of `match['scores']`: `s['score']` with `participant`/`goals`. -/
structure ScoreEntry where
  participant : Option String
  goals : Option Nat
deriving Repr, DecidableEq

/-- A match snapshot, restricted to the fields the engine reads.
`league` models `match['league']['name']`. -/
structure MatchSnap where
  id : Option Nat
  participants : List Participant
  events : List RawEvent
  lineups : List Lineup
  state : Option MatchState
  scores : List ScoreEntry
  league : Option String
deriving Repr, DecidableEq

/-- Model of `self.GOAL_EVENT_IDS = [14, 15, 16]`. -/
def GOAL_EVENT_IDS : List Nat := [14, 15, 16]

/-- Model of `self.CARD_EVENT_IDS = [19, 20, 21]`. -/
def CARD_EVENT_IDS : List Nat := [19, 20, 21]

/-- Model of `e.get('type_id') in GOAL_EVENT_IDS` (Python: `None in [...]` is false). -/
def is_goal_type (e : RawEvent) : Bool :=
  match e.type_id with
  | some t => GOAL_EVENT_IDS.contains t
  | none => false

/-- Model of `get_player_team_mapping`: walk the lineups, building the
player-name → team-name and player-id → team-id dictionaries. -/
def get_player_team_mapping (m : MatchSnap) :
    List (String × String) × List (Nat × Nat) :=
  m.lineups.foldl
    (fun acc lu =>
      let team_id := lu.participant_id
      let team_name := lu.participant_name.getD "Ismeretlen"
      lu.players.foldl
        (fun acc pd =>
          let acc1 :=
            if truthyS pd.name then
              (dInsert acc.1 (pd.name.getD "") team_name, acc.2)
            else acc
          if truthyN pd.id && truthyN team_id then
            (acc1.1, dInsert acc1.2 (pd.id.getD 0) (team_id.getD 0))
          else acc1)
        acc)
    ([], [])

/-- Python `str.lower()`, computed over the character list (the library's
`String.toLower` recurses over byte positions, which the kernel cannot
evaluate; this list-based form is extensionally the same map). -/
def pyLower (s : String) : String :=
  String.mk (s.data.map Char.toLower)

/-- Python `str.upper()`, computed over the character list. -/
def pyUpper (s : String) : String :=
  String.mk (s.data.map Char.toUpper)

/-- Python `str.strip()`: drop whitespace from both ends, over the character
list. -/
def pyStrip (s : String) : String :=
  String.mk ((((s.data.dropWhile Char.isWhitespace)).reverse.dropWhile
    Char.isWhitespace).reverse)

/-- The validity filter of `extract_events`:
`(e.get('result') or '').lower() in ('cancelled', 'disallowed', 'void')`. -/
def is_void (e : RawEvent) : Bool :=
  let res := pyLower (e.result.getD "")
  res == "cancelled" || res == "disallowed" || res == "void"

/-- The team-attribution chain of `extract_events` (tiers: team/participant
identifier, player identifier via the lineup map, location tag, player name
via the lineup map, then the event's own free-text `team_name`). -/
def resolve_team_name (participants : List Participant)
    (ptm : List (String × String)) (ptid : List (Nat × Nat))
    (e : RawEvent) : String :=
  let player_name := e.player_name.getD "Ismeretlen"
  let pid := e.player_id
  let tid := pyOrN e.team_id e.participant_id
  let loc := e.location
  let team_name : String :=
    if truthyN tid then
      match participants.find? (fun p => p.id == tid) with
      | some p => p.name
      | none => "Ismeretlen"
    else if truthyN pid && (dGet ptid (pid.getD 0)).isSome then
      let t := (dGet ptid (pid.getD 0)).getD 0
      match participants.find? (fun p => p.id == some t) with
      | some p => p.name
      | none => "Ismeretlen"
    else if loc == some "home" || loc == some "away" then
      match participants.find? (fun p => p.location == loc) with
      | some p => p.name
      | none => "Ismeretlen"
    else
      match dGet ptm player_name with
      | some tn => tn
      | none => "Ismeretlen"
  -- PRODUCTION FIX 3: free-text team name on the event itself
  if team_name == "Ismeretlen" then
    match e.team_name with
    | some tn => if pyStrip tn != "" then pyStrip tn else "Ismeretlen"
    | none => "Ismeretlen"
  else team_name

/-- The canonical event dictionary built by `extract_events` (note: it carries
no `extra_minute` key). -/
structure CanonEvent where
  id : Option Nat
  type_id : Option Nat
  minute : Option Nat
  player_name : String
  player_id : Option Nat
  team_name : String
deriving Repr, DecidableEq

/-- The per-event body of `extract_events`. -/
def canon_of (participants : List Participant)
    (ptm : List (String × String)) (ptid : List (Nat × Nat))
    (e : RawEvent) : CanonEvent :=
  { id := e.id
    type_id := e.type_id
    minute := e.minute
    player_name := e.player_name.getD "Ismeretlen"
    player_id := e.player_id
    team_name := resolve_team_name participants ptm ptid e }

/-- Model of `extract_events`: drop void events, then attribute each remaining raw
sub-event, preserving the snapshot's collection order. -/
def extract_events (m : MatchSnap) : List CanonEvent :=
  let events := m.events.filter (fun e => !(is_void e))
  let maps := get_player_team_mapping m
  events.map (canon_of m.participants maps.1 maps.2)

/-- The Python sort key
`(x.get('minute') or 0, x.get('extra_minute') or 0, x.get('id') or 0)`. -/
def evKey (e : RawEvent) : Nat × Nat × Nat :=
  (orZero e.minute, orZero e.extra_minute, orZero e.id)

/-- Strict lexicographic comparison on key triples (Python tuple `<`). -/
def tLt : Nat × Nat × Nat → Nat × Nat × Nat → Bool
  | (a1, b1, c1), (a2, b2, c2) =>
    a1 < a2 || (a1 == a2 && (b1 < b2 || (b1 == b2 && c1 < c2)))

/-- Non-strict lexicographic comparison: `x ≤ y` iff not `y < x`. -/
def tLe (x y : Nat × Nat × Nat) : Bool :=
  !(tLt y x)

theorem tLt_irrefl (x : Nat × Nat × Nat) : tLt x x = false := by
  rcases x with ⟨a, b, c⟩
  simp [tLt]

theorem tLe_iff (x y : Nat × Nat × Nat) :
    tLe x y = true ↔
      x.1 < y.1 ∨ (x.1 = y.1 ∧ (x.2.1 < y.2.1 ∨ (x.2.1 = y.2.1 ∧ x.2.2 ≤ y.2.2))) := by
  rcases x with ⟨a1, b1, c1⟩
  rcases y with ⟨a2, b2, c2⟩
  simp only [tLe, tLt, Bool.not_eq_true', Bool.or_eq_false_iff, Bool.and_eq_false_imp,
    decide_eq_false_iff_not, decide_eq_true_eq, beq_iff_eq]
  omega

theorem tLe_total (x y : Nat × Nat × Nat) : tLe x y = true ∨ tLe y x = true := by
  rw [tLe_iff, tLe_iff]
  omega

theorem tLe_trans {x y z : Nat × Nat × Nat}
    (h1 : tLe x y = true) (h2 : tLe y z = true) : tLe x z = true := by
  rw [tLe_iff] at h1 h2 ⊢
  omega

theorem tLt_iff_not_tLe (x y : Nat × Nat × Nat) :
    tLt x y = true ↔ ¬ tLe y x = true := by
  simp [tLe]

/-- The sort order used by `goal_events.sort(key=...)`: non-strict key order. -/
def evLe (a b : RawEvent) : Prop :=
  tLe (evKey a) (evKey b) = true

instance : DecidableRel evLe := fun a b => by
  unfold evLe
  infer_instance

instance : IsTotal RawEvent evLe :=
  ⟨fun a b => tLe_total (evKey a) (evKey b)⟩

instance : IsTrans RawEvent evLe :=
  ⟨fun _ _ _ h1 h2 => tLe_trans h1 h2⟩

/-- The sorted goal-event list built at the top of
`calculate_progressive_score`: filter to goal type codes, then sort by
(minute, extra minute, id). -/
def sorted_goal_events (m : MatchSnap) : List RawEvent :=
  List.insertionSort evLe (m.events.filter is_goal_type)

/-- The last-assignment-wins scan
`for p in participants: if p['meta']['location'] == loc: x = p.get('id')`. -/
def last_loc_id (loc : String) (ps : List Participant) : Option Nat :=
  match (ps.filter (fun p => p.location == some loc)).getLast? with
  | some p => p.id
  | none => none

/-- The side-resolution chain of `calculate_progressive_score` (before
own-goal inversion): team/participant identifier against the contestant
identifiers, then the location tag, then the player identifier via the
lineup map, then the player name via the lineup map. -/
def calc_scored_side (m : MatchSnap) (g : RawEvent) : Option String :=
  let hid := last_loc_id "home" m.participants
  let aid := last_loc_id "away" m.participants
  let maps := get_player_team_mapping m
  let tid := pyOrN g.team_id g.participant_id
  let loc := g.location
  if truthyN tid && tid == hid then some "home"
  else if truthyN tid && tid == aid then some "away"
  else if loc == some "home" then some "home"
  else if loc == some "away" then some "away"
  else
    let pid := g.player_id
    if truthyN pid && (dGet maps.2 (pid.getD 0)).isSome then
      let t := (dGet maps.2 (pid.getD 0)).getD 0
      if some t == hid then some "home"
      else if some t == aid then some "away"
      else none
    else
      match g.player_name.bind (fun n => dGet maps.1 n) with
      | some tname =>
        if truthyS (some tname) then
          match m.participants.find? (fun p => p.name == tname) with
          | some p => some (if p.location == some "home" then "home" else "away")
          | none => none
        else none
      | none => none

/-- The side finally credited: `calc_scored_side` followed by the own-goal
inversion (`type_id == 16` flips the side). -/
def scored_side_final (m : MatchSnap) (g : RawEvent) : Option String :=
  match calc_scored_side m g with
  | none => none
  | some s =>
    if g.type_id == some 16 then some (if s == "away" then "home" else "away")
    else some s

/-- The tallying loop of `calculate_progressive_score`: walk the sorted goal
list with accumulators `h`, `a`, breaking at the first event whose key
exceeds the target key; unresolved events are skipped. -/
def score_go (m : MatchSnap) (curK : Nat × Nat × Nat) :
    List RawEvent → Nat → Nat → Nat × Nat
  | [], h, a => (h, a)
  | g :: rest, h, a =>
    if tLt curK (evKey g) then (h, a)
    else
      match scored_side_final m g with
      | none => score_go m curK rest h a
      | some s =>
        if s == "home" then score_go m curK rest (h + 1) a
        else score_go m curK rest h (a + 1)

/-- Model of `calculate_progressive_score(match, current_event)`.  The three arguments
`cm`, `cx`, `cid` are the target event's `minute`, `extra_minute` and `id`
fields (the only keys the code reads from `current_event`; the canonical
events the bot actually passes carry no `extra_minute` key, so `cx = none`
there). -/
def calculate_progressive_score (m : MatchSnap) (cm cx cid : Option Nat) :
    Nat × Nat :=
  score_go m (orZero cm, orZero cx, orZero cid) (sorted_goal_events m) 0 0

/-- The minute/extra-minute fields `display_minute` reads from its event
argument (the canonical event dictionaries the bot passes carry no
`extra_minute` key, so that field is `none` there). -/
structure MinuteEvent where
  minute : Option Nat
  extra_minute : Option Nat
deriving Repr, DecidableEq

/-- Model of `event.get('minute') or (state or {}).get('minute') or 0`. -/
def eff_minute (e : MinuteEvent) (st : Option MatchState) : Nat :=
  orZero (pyOrN e.minute (st.bind MatchState.minute))

/-- Model of `event.get('extra_minute') or (state or {}).get('added_time') or 0`. -/
def eff_added (e : MinuteEvent) (st : Option MatchState) : Nat :=
  orZero (pyOrN e.extra_minute (st.bind MatchState.added_time))

/-- Model of `((state or {}).get('period') or '').upper()`. -/
def period_of (st : Option MatchState) : String :=
  pyUpper
    (match st with
     | some x => x.period.getD ""
     | none => "")

/-- Model of `display_minute(event, state)`. -/
def display_minute (e : MinuteEvent) (st : Option MatchState) : String :=
  let m := eff_minute e st
  let added := eff_added e st
  let period := period_of st
  if period == "1H" || period == "H1" then
    if 45 ≤ m && 0 < added then "45+" ++ toString added ++ ". perc"
    else toString m ++ ". perc"
  else if period == "2H" || period == "H2" then
    if 90 < m && 0 < added then "90+" ++ toString added ++ ". perc"
    else toString m ++ ". perc"
  else if period == "ET" || period == "AET" || period == "E1" || period == "E2" then
    "ET " ++ toString m ++ ". perc"
  else if period == "PEN" || period == "PSO" then "PEN"
  else toString m ++ ". perc"

/-- Model of `extract_team_names`: last-assignment-wins scan over the participants. -/
def extract_team_names (m : MatchSnap) : String × String :=
  m.participants.foldl
    (fun acc p =>
      match p.location with
      | some "home" => (p.name, acc.2)
      | some "away" => (acc.1, p.name)
      | _ => acc)
    ("Ismeretlen", "Ismeretlen")

/-- Model of `extract_league_name`. -/
def extract_league_name (m : MatchSnap) : String :=
  m.league.getD "Ismeretlen liga"

/-- Model of `extract_score`: read the `scores` collection (last assignment wins per
side), falling back to the participants' meta score when both tallies are
still zero. -/
def extract_score (m : MatchSnap) : Nat × Nat :=
  let fromScores := m.scores.foldl
    (fun acc s =>
      let acc1 := if s.participant == some "home" then (s.goals.getD 0, acc.2) else acc
      if s.participant == some "away" then (acc1.1, s.goals.getD 0) else acc1)
    (0, 0)
  if fromScores.1 == 0 && fromScores.2 == 0 then
    m.participants.foldl
      (fun acc p =>
        if p.location == some "home" then (p.score.getD 0, acc.2)
        else if p.location == some "away" then (acc.1, p.score.getD 0)
        else acc)
      (0, 0)
  else fromScores

/-- The `MinuteEvent` view of a canonical event (no `extra_minute` key). -/
def canon_minute_event (e : CanonEvent) : MinuteEvent :=
  { minute := e.minute, extra_minute := none }

/-- Model of `generate_goal_message(match, event)`; the wall-clock date is the
`dateStr` parameter. -/
def generate_goal_message (dateStr : String) (m : MatchSnap) (e : CanonEvent) :
    String :=
  let teams := extract_team_names m
  let score := calculate_progressive_score m e.minute none e.id
  let league_name := extract_league_name m
  "⚽ GÓL!\n" ++ "📆 " ++ dateStr ++ "\n" ++ "🏆 " ++ league_name ++ "\n\n" ++
    teams.1 ++ " " ++ toString score.1 ++ "–" ++ toString score.2 ++ " " ++ teams.2 ++ "\n" ++
    "⏱️ " ++ display_minute (canon_minute_event e) m.state ++ "\n" ++
    "👤 " ++ e.player_name ++ " (" ++ e.team_name ++ ")"

/-- Model of `generate_card_message(match, event, card_type)`. -/
def generate_card_message (dateStr : String) (m : MatchSnap) (e : CanonEvent)
    (card_type : String) : String :=
  let teams := extract_team_names m
  let league_name := extract_league_name m
  let header :=
    if card_type == "yellow" then "🟨 SÁRGA LAP!\n"
    else if card_type == "second_yellow" then "🟨🟥 MÁSODIK SÁRGA LAP!\n"
    else "🟥 PIROS LAP!\n"
  header ++ "📆 " ++ dateStr ++ "\n" ++ "🏆 " ++ league_name ++ "\n\n" ++
    teams.1 ++ " vs " ++ teams.2 ++ "\n" ++
    "⏱️ " ++ display_minute (canon_minute_event e) m.state ++ "\n" ++
    "👤 " ++ e.player_name ++ " (" ++ e.team_name ++ ")"

/-- Model of `send_telegram_message`: the Telegram call may raise (`sendFail`), but the
exception is caught and logged inside the method, which always returns
normally; the returned flag records whether the send was delivered. -/
def send_telegram_message (sendFail : String → Bool) (botReady : Bool)
    (msg : String) : Bool :=
  if botReady then !(sendFail msg) else false

/-- One dispatched notification: the sub-event identifier it was keyed on,
the rendered message, and whether the channel delivered it. -/
structure Dispatch where
  eid : Option Nat
  message : String
  delivered : Bool
deriving Repr, DecidableEq

/-- Model of `c.get('type_id') in GOAL_EVENT_IDS` for a canonical event. -/
def is_goal_type_c (c : CanonEvent) : Bool :=
  match c.type_id with
  | some t => GOAL_EVENT_IDS.contains t
  | none => false

/-- Model of `c.get('type_id') in CARD_EVENT_IDS` for a canonical event. -/
def is_card_type_c (c : CanonEvent) : Bool :=
  match c.type_id with
  | some t => CARD_EVENT_IDS.contains t
  | none => false

/-- The event loop of `process_match_events`: skip identifiers already in
`processed_events`; for a goal or card event, render the message, send it
(failures swallowed), and add the identifier to the set; other type codes are
ignored. -/
def process_go (sendFail : String → Bool) (botReady : Bool) (dateStr : String)
    (m : MatchSnap) :
    Finset (Option Nat) → List CanonEvent → Finset (Option Nat) × List Dispatch
  | s, [] => (s, [])
  | s, e :: rest =>
    if e.id ∈ s then process_go sendFail botReady dateStr m s rest
    else if is_goal_type_c e then
      let msg := generate_goal_message dateStr m e
      let ok := send_telegram_message sendFail botReady msg
      let r := process_go sendFail botReady dateStr m (insert e.id s) rest
      (r.1, ⟨e.id, msg, ok⟩ :: r.2)
    else if is_card_type_c e then
      let card_type :=
        if e.type_id == some 19 then "yellow"
        else if e.type_id == some 21 then "second_yellow"
        else "red"
      let msg := generate_card_message dateStr m e card_type
      let ok := send_telegram_message sendFail botReady msg
      let r := process_go sendFail botReady dateStr m (insert e.id s) rest
      (r.1, ⟨e.id, msg, ok⟩ :: r.2)
    else process_go sendFail botReady dateStr m s rest

/-- Model of `process_match_events(match)` acting on the `processed_events` set `s`;
returns the updated set and the list of dispatches, in order. -/
def process_match_events (sendFail : String → Bool) (botReady : Bool)
    (dateStr : String) (s : Finset (Option Nat)) (m : MatchSnap) :
    Finset (Option Nat) × List Dispatch :=
  process_go sendFail botReady dateStr m s (extract_events m)

/-- Sequential processing of a list of snapshots against the shared
`processed_events` set (the per-match phase of consecutive polling work). -/
def run_snapshots (sendFail : String → Bool) (botReady : Bool)
    (dateStr : String) :
    List MatchSnap → Finset (Option Nat) → Finset (Option Nat) × List Dispatch
  | [], s => (s, [])
  | m :: rest, s =>
    let r1 := process_match_events sendFail botReady dateStr s m
    let r2 := run_snapshots sendFail botReady dateStr rest r1.1
    (r2.1, r1.2 ++ r2.2)

/-- Model of `(match.get('state') or {}).get('status') or ''`. -/
def status_of (m : MatchSnap) : String :=
  match m.state with
  | some st => st.status.getD ""
  | none => ""

/-- The terminal status codes of the cleanup sweep. -/
def TERMINAL_STATUSES : List String := ["FT", "AET", "FT_PEN", "FT_ET", "ENDED"]

/-- The `last_sent` dictionary: match identifier → last stored score pair. -/
def LastSent : Type := List (Option Nat × (Nat × Nat))

/-- The cleanup sweep at the end of `monitoring_loop`'s cycle: for every
snapshot whose status is terminal, remove the identifiers of the snapshot's
(raw) event collection from `processed_events` and pop the match's
`last_sent` entry. -/
def cleanup_finished :
    List MatchSnap → Finset (Option Nat) → LastSent →
      Finset (Option Nat) × LastSent
  | [], s, ls => (s, ls)
  | m :: rest, s, ls =>
    if TERMINAL_STATUSES.contains (status_of m) then
      let mids := (m.events.map RawEvent.id).toFinset
      cleanup_finished rest (s \ mids) (dErase ls m.id)
    else cleanup_finished rest s ls

/-- One polling cycle's per-match phase plus the cleanup sweep, for an
already league-filtered snapshot list: process each match (updating the
shared set and storing the extracted score in `last_sent`), then sweep
terminal matches. -/
def run_cycle (sendFail : String → Bool) (botReady : Bool) (dateStr : String)
    (ms : List MatchSnap) (s : Finset (Option Nat)) (ls : LastSent) :
    Finset (Option Nat) × LastSent × List Dispatch :=
  let step := ms.foldl
    (fun acc m =>
      let r := process_match_events sendFail botReady dateStr acc.1 m
      (r.1, dInsert (dErase acc.2.1 m.id) m.id (extract_score m), acc.2.2 ++ r.2))
    (s, ls, [])
  let swept := cleanup_finished ms step.1 step.2.1
  (swept.1, swept.2, step.2.2)

/-- Outcome of one `requests.get` attempt inside `get_live_matches`:
a rate-limit response (status 429) or a success response — each carrying the
result of later `.json()['data']` parsing, `none` meaning the body does not
decode or has no `data` key — or a raised transport/HTTP error
(`raise_for_status` included). -/
inductive AttemptOutcome where
  | ok (body : Option (List Nat))
  | rateLimited (body : Option (List Nat))
  | fail
deriving Repr, DecidableEq

/-- Result of one `get_live_matches` call: the returned match list (match
identifiers), the sleeps performed (in seconds, exact rationals), how many
requests were issued, and whether the outer `except` caught an exception. -/
structure FetchResult where
  data : List Nat
  sleeps : List ℚ
  attempts : Nat
  caught : Bool
deriving Repr, DecidableEq

/-- Parsing the response in scope once the retry loop stops:
`data = response.json(); matches = data.get('data', [])`.  A `some` body is
the parsed match list; a `none` body models a JSON decode failure, which
raises and is caught by the outer handler (empty list, `caught` set). -/
def fetch_parse (body : Option (List Nat)) (sleeps : List ℚ) (n : Nat) :
    FetchResult :=
  { data := body.getD [], sleeps := sleeps, attempts := n,
    caught := body.isNone }

/-- Attempt 3 (index 2) of `for attempt in range(3)`: a success breaks and
parses; a 429 sleeps `0.8 * 3`, the loop ends, and the code falls through to
parse that same rate-limited response; any other failure re-raises
(`attempt == 2`), caught by the outer handler. -/
def fetch_attempt3 (oracle : Nat → AttemptOutcome) (sleeps : List ℚ) :
    FetchResult :=
  match oracle 2 with
  | .ok b => fetch_parse b sleeps 3
  | .rateLimited b => fetch_parse b (sleeps ++ [(8 : ℚ) / 10 * 3]) 3
  | .fail => { data := [], sleeps := sleeps, attempts := 3, caught := true }

/-- Attempt 2 (index 1): a success breaks and parses; a 429 sleeps `0.8 * 2`
and continues; any other failure sleeps `0.5 * 2` and continues. -/
def fetch_attempt2 (oracle : Nat → AttemptOutcome) (sleeps : List ℚ) :
    FetchResult :=
  match oracle 1 with
  | .ok b => fetch_parse b sleeps 2
  | .rateLimited _ => fetch_attempt3 oracle (sleeps ++ [(8 : ℚ) / 10 * 2])
  | .fail => fetch_attempt3 oracle (sleeps ++ [(5 : ℚ) / 10 * 2])

/-- Model of `get_live_matches`: the `for attempt in range(3)` retry loop, unrolled
(attempt 1 = index 0): a success breaks to parsing; a 429 sleeps `0.8 * 1`
and continues; any other failure sleeps `0.5 * 1` and continues. -/
def get_live_matches (oracle : Nat → AttemptOutcome) : FetchResult :=
  match oracle 0 with
  | .ok b => fetch_parse b [] 1
  | .rateLimited _ => fetch_attempt2 oracle [(8 : ℚ) / 10 * 1]
  | .fail => fetch_attempt2 oracle [(5 : ℚ) / 10 * 1]

/-! ## Helper lemmas -/

theorem calc_scored_side_range (m : MatchSnap) (g : RawEvent) :
    calc_scored_side m g = none ∨ calc_scored_side m g = some "home" ∨
      calc_scored_side m g = some "away" := by
  unfold calc_scored_side
  dsimp only
  repeat first
    | exact Or.inl rfl
    | exact Or.inr (Or.inl rfl)
    | exact Or.inr (Or.inr rfl)
    | split

theorem scored_side_final_range (m : MatchSnap) (g : RawEvent) :
    scored_side_final m g = none ∨ scored_side_final m g = some "home" ∨
      scored_side_final m g = some "away" := by
  unfold scored_side_final
  rcases calc_scored_side_range m g with h | h | h <;> rw [h]
  · exact Or.inl rfl
  · by_cases h16 : (g.type_id == some 16) = true <;> simp [h16]
  · by_cases h16 : (g.type_id == some 16) = true <;> simp [h16]

theorem sorted_goal_events_pairwise (m : MatchSnap) :
    (sorted_goal_events m).Pairwise evLe :=
  List.sorted_insertionSort evLe _

theorem sorted_goal_events_perm (m : MatchSnap) :
    (sorted_goal_events m).Perm (m.events.filter is_goal_type) :=
  List.perm_insertionSort evLe _

theorem score_go_eq (m : MatchSnap) (curK : Nat × Nat × Nat) :
    ∀ (l : List RawEvent), l.Pairwise evLe → ∀ (h a : Nat),
      score_go m curK l h a =
        (h + l.countP
            (fun g => (scored_side_final m g == some "home") && tLe (evKey g) curK),
         a + l.countP
            (fun g => (scored_side_final m g == some "away") && tLe (evKey g) curK)) := by
  intro l
  induction l with
  | nil => intro _ h a; simp [score_go]
  | cons g rest ih =>
    intro hpw h a
    rcases List.pairwise_cons.mp hpw with ⟨hg, hrest⟩
    by_cases ht : tLt curK (evKey g) = true
    · have hgle : tLe (evKey g) curK = false := by
        have := (tLt_iff_not_tLe curK (evKey g)).mp ht
        simpa using this
      have hall : ∀ b ∈ g :: rest, tLe (evKey b) curK = false := by
        intro b hb
        rcases List.mem_cons.mp hb with rfl | hb
        · exact hgle
        · by_contra hbc
          have hble : tLe (evKey b) curK = true := by
            simpa using hbc
          have : tLe (evKey g) curK = true := tLe_trans (hg b hb) hble
          simp [this] at hgle
      have c1 : (g :: rest).countP
          (fun g => (scored_side_final m g == some "home") && tLe (evKey g) curK) = 0 := by
        rw [List.countP_eq_zero]
        intro b hb
        simp [hall b hb]
      have c2 : (g :: rest).countP
          (fun g => (scored_side_final m g == some "away") && tLe (evKey g) curK) = 0 := by
        rw [List.countP_eq_zero]
        intro b hb
        simp [hall b hb]
      rw [c1, c2]
      simp [score_go, ht]
    · have ht0 : tLt curK (evKey g) = false := by
        simpa using ht
      have hgle : tLe (evKey g) curK = true := by
        simp [tLe, ht0]
      rcases scored_side_final_range m g with hs | hs | hs
      · have hstep : score_go m curK (g :: rest) h a = score_go m curK rest h a := by
          simp [score_go, ht0, hs]
        rw [hstep, ih hrest h a]
        simp only [List.countP_cons]
        simp [hs]
      · have hstep : score_go m curK (g :: rest) h a = score_go m curK rest (h + 1) a := by
          simp [score_go, ht0, hs]
        rw [hstep, ih hrest (h + 1) a]
        simp only [List.countP_cons]
        simp [hs, hgle, Prod.mk.injEq]
        omega
      · have hstep : score_go m curK (g :: rest) h a = score_go m curK rest h (a + 1) := by
          simp [score_go, ht0, hs]
        rw [hstep, ih hrest h (a + 1)]
        simp only [List.countP_cons]
        simp [hs, hgle, Prod.mk.injEq]
        omega

/-- C3: progressive score is a prefix tally.  For every snapshot and every
target event key (minute, extra minute, identifier), the score returned by
`calculate_progressive_score` equals the pair of per-side counts over exactly
the goal-category events whose ordering key is lexicographically at most the
target key (ties included): one count of the events finally credited to the
home side and one of those credited to the away side, where the credited side
(`scored_side_final`) resolves the event's hints and flips the side for an
own-goal type code; an event whose side cannot be resolved contributes to
neither count.  Both tallies start from zero and (being `Nat`) are never
negative. -/
theorem progressive_score_is_prefix_tally (m : MatchSnap) (cm cx cid : Option Nat) :
    calculate_progressive_score m cm cx cid =
      (((m.events.filter is_goal_type).filter
          (fun g => tLe (evKey g) (orZero cm, orZero cx, orZero cid))).countP
          (fun g => scored_side_final m g == some "home"),
       ((m.events.filter is_goal_type).filter
          (fun g => tLe (evKey g) (orZero cm, orZero cx, orZero cid))).countP
          (fun g => scored_side_final m g == some "away")) := by
  unfold calculate_progressive_score
  rw [score_go_eq m (orZero cm, orZero cx, orZero cid) (sorted_goal_events m)
    (sorted_goal_events_pairwise m) 0 0]
  simp only [Nat.zero_add, Prod.mk.injEq]
  constructor
  · rw [List.countP_filter]
    exact (sorted_goal_events_perm m).countP_eq _
  · rw [List.countP_filter]
    exact (sorted_goal_events_perm m).countP_eq _

theorem process_go_mem_mono (f : String → Bool) (b : Bool) (d : String)
    (m : MatchSnap) :
    ∀ (l : List CanonEvent) (s : Finset (Option Nat)) (x : Option Nat),
      x ∈ s → x ∈ (process_go f b d m s l).1 := by
  intro l
  induction l with
  | nil => intro s x hx; simpa [process_go] using hx
  | cons e rest ih =>
    intro s x hx
    by_cases h1 : e.id ∈ s
    · simpa [process_go, h1] using ih s x hx
    · by_cases h2 : is_goal_type_c e = true
      · have hh := ih (insert e.id s) x (Finset.mem_insert_of_mem hx)
        simpa [process_go, h1, h2] using hh
      · by_cases h3 : is_card_type_c e = true
        · have hh := ih (insert e.id s) x (Finset.mem_insert_of_mem hx)
          simpa [process_go, h1, h2, h3] using hh
        · simpa [process_go, h1, h2, h3] using ih s x hx

theorem process_go_mem_final_iff (f : String → Bool) (b : Bool) (d : String)
    (m : MatchSnap) :
    ∀ (l : List CanonEvent) (s : Finset (Option Nat)) (x : Option Nat),
      x ∈ (process_go f b d m s l).1 ↔
        x ∈ s ∨ ∃ e ∈ l, (is_goal_type_c e || is_card_type_c e) = true ∧ e.id = x := by
  intro l
  induction l with
  | nil => intro s x; simp [process_go]
  | cons e rest ih =>
    intro s x
    by_cases h1 : e.id ∈ s
    · have step : (process_go f b d m s (e :: rest)).1 = (process_go f b d m s rest).1 := by
        simp [process_go, h1]
      rw [step, ih s x]
      constructor
      · rintro (hx | ⟨e2, he2, hgc, hid⟩)
        · exact Or.inl hx
        · exact Or.inr ⟨e2, List.mem_cons_of_mem _ he2, hgc, hid⟩
      · rintro (hx | ⟨e2, he2, hgc, hid⟩)
        · exact Or.inl hx
        · rcases List.mem_cons.mp he2 with rfl | he2
          · exact Or.inl (hid ▸ h1)
          · exact Or.inr ⟨e2, he2, hgc, hid⟩
    · by_cases h2 : is_goal_type_c e = true
      · have step : (process_go f b d m s (e :: rest)).1 =
            (process_go f b d m (insert e.id s) rest).1 := by
          simp [process_go, h1, h2]
        rw [step, ih (insert e.id s) x]
        simp only [Finset.mem_insert, List.mem_cons]
        constructor
        · rintro ((rfl | hx) | ⟨e2, he2, hgc, hid⟩)
          · exact Or.inr ⟨e, Or.inl rfl, by simp [h2], rfl⟩
          · exact Or.inl hx
          · exact Or.inr ⟨e2, Or.inr he2, hgc, hid⟩
        · rintro (hx | ⟨e2, rfl | he2, hgc, hid⟩)
          · exact Or.inl (Or.inr hx)
          · exact Or.inl (Or.inl hid.symm)
          · exact Or.inr ⟨e2, he2, hgc, hid⟩
      · by_cases h3 : is_card_type_c e = true
        · have step : (process_go f b d m s (e :: rest)).1 =
              (process_go f b d m (insert e.id s) rest).1 := by
            simp [process_go, h1, h2, h3]
          rw [step, ih (insert e.id s) x]
          simp only [Finset.mem_insert, List.mem_cons]
          constructor
          · rintro ((rfl | hx) | ⟨e2, he2, hgc, hid⟩)
            · exact Or.inr ⟨e, Or.inl rfl, by simp [h3], rfl⟩
            · exact Or.inl hx
            · exact Or.inr ⟨e2, Or.inr he2, hgc, hid⟩
          · rintro (hx | ⟨e2, rfl | he2, hgc, hid⟩)
            · exact Or.inl (Or.inr hx)
            · exact Or.inl (Or.inl hid.symm)
            · exact Or.inr ⟨e2, he2, hgc, hid⟩
        · have step : (process_go f b d m s (e :: rest)).1 = (process_go f b d m s rest).1 := by
            simp [process_go, h1, h2, h3]
          rw [step, ih s x]
          have hgc0 : (is_goal_type_c e || is_card_type_c e) = false := by
            simp [h2, h3]
          constructor
          · rintro (hx | ⟨e2, he2, hgc, hid⟩)
            · exact Or.inl hx
            · exact Or.inr ⟨e2, List.mem_cons_of_mem _ he2, hgc, hid⟩
          · rintro (hx | ⟨e2, he2, hgc, hid⟩)
            · exact Or.inl hx
            · rcases List.mem_cons.mp he2 with rfl | he2
              · rw [hgc0] at hgc; cases hgc
              · exact Or.inr ⟨e2, he2, hgc, hid⟩

theorem process_go_dispatch_from (f : String → Bool) (b : Bool) (d : String)
    (m : MatchSnap) :
    ∀ (l : List CanonEvent) (s : Finset (Option Nat)),
      ∀ dp ∈ (process_go f b d m s l).2, ∃ e ∈ l, dp.eid = e.id := by
  intro l
  induction l with
  | nil => intro s dp hdp; simp [process_go] at hdp
  | cons e rest ih =>
    intro s dp hdp
    by_cases h1 : e.id ∈ s
    · rw [show (process_go f b d m s (e :: rest)).2 = (process_go f b d m s rest).2 by
        simp [process_go, h1]] at hdp
      rcases ih s dp hdp with ⟨e2, he2, hid⟩
      exact ⟨e2, List.mem_cons_of_mem _ he2, hid⟩
    · by_cases h2 : is_goal_type_c e = true
      · rw [show (process_go f b d m s (e :: rest)).2 =
            ⟨e.id, generate_goal_message d m e,
              send_telegram_message f b (generate_goal_message d m e)⟩ ::
              (process_go f b d m (insert e.id s) rest).2 by
          simp [process_go, h1, h2]] at hdp
        rcases List.mem_cons.mp hdp with rfl | hdp
        · exact ⟨e, List.mem_cons_self _ _, rfl⟩
        · rcases ih (insert e.id s) dp hdp with ⟨e2, he2, hid⟩
          exact ⟨e2, List.mem_cons_of_mem _ he2, hid⟩
      · by_cases h3 : is_card_type_c e = true
        · rw [show (process_go f b d m s (e :: rest)).2 =
              ⟨e.id, generate_card_message d m e
                  (if e.type_id == some 19 then "yellow"
                   else if e.type_id == some 21 then "second_yellow" else "red"),
                send_telegram_message f b
                  (generate_card_message d m e
                    (if e.type_id == some 19 then "yellow"
                     else if e.type_id == some 21 then "second_yellow" else "red"))⟩ ::
                (process_go f b d m (insert e.id s) rest).2 by
            simp [process_go, h1, h2, h3]] at hdp
          rcases List.mem_cons.mp hdp with rfl | hdp
          · exact ⟨e, List.mem_cons_self _ _, rfl⟩
          · rcases ih (insert e.id s) dp hdp with ⟨e2, he2, hid⟩
            exact ⟨e2, List.mem_cons_of_mem _ he2, hid⟩
        · rw [show (process_go f b d m s (e :: rest)).2 = (process_go f b d m s rest).2 by
            simp [process_go, h1, h2, h3]] at hdp
          rcases ih s dp hdp with ⟨e2, he2, hid⟩
          exact ⟨e2, List.mem_cons_of_mem _ he2, hid⟩

theorem process_go_dispatch_not_mem (f : String → Bool) (b : Bool) (d : String)
    (m : MatchSnap) :
    ∀ (l : List CanonEvent) (s : Finset (Option Nat)),
      ∀ dp ∈ (process_go f b d m s l).2, dp.eid ∉ s := by
  intro l
  induction l with
  | nil => intro s dp hdp; simp [process_go] at hdp
  | cons e rest ih =>
    intro s dp hdp
    by_cases h1 : e.id ∈ s
    · rw [show (process_go f b d m s (e :: rest)).2 = (process_go f b d m s rest).2 by
        simp [process_go, h1]] at hdp
      exact ih s dp hdp
    · by_cases h2 : is_goal_type_c e = true
      · rw [show (process_go f b d m s (e :: rest)).2 =
            ⟨e.id, generate_goal_message d m e,
              send_telegram_message f b (generate_goal_message d m e)⟩ ::
              (process_go f b d m (insert e.id s) rest).2 by
          simp [process_go, h1, h2]] at hdp
        rcases List.mem_cons.mp hdp with rfl | hdp
        · exact h1
        · have := ih (insert e.id s) dp hdp
          intro hc
          exact this (Finset.mem_insert_of_mem hc)
      · by_cases h3 : is_card_type_c e = true
        · rw [show (process_go f b d m s (e :: rest)).2 =
              ⟨e.id, generate_card_message d m e
                  (if e.type_id == some 19 then "yellow"
                   else if e.type_id == some 21 then "second_yellow" else "red"),
                send_telegram_message f b
                  (generate_card_message d m e
                    (if e.type_id == some 19 then "yellow"
                     else if e.type_id == some 21 then "second_yellow" else "red"))⟩ ::
                (process_go f b d m (insert e.id s) rest).2 by
            simp [process_go, h1, h2, h3]] at hdp
          rcases List.mem_cons.mp hdp with rfl | hdp
          · exact h1
          · have := ih (insert e.id s) dp hdp
            intro hc
            exact this (Finset.mem_insert_of_mem hc)
        · rw [show (process_go f b d m s (e :: rest)).2 = (process_go f b d m s rest).2 by
            simp [process_go, h1, h2, h3]] at hdp
          exact ih s dp hdp

theorem process_go_dispatch_mem_final (f : String → Bool) (b : Bool) (d : String)
    (m : MatchSnap) :
    ∀ (l : List CanonEvent) (s : Finset (Option Nat)),
      ∀ dp ∈ (process_go f b d m s l).2, dp.eid ∈ (process_go f b d m s l).1 := by
  intro l
  induction l with
  | nil => intro s dp hdp; simp [process_go] at hdp
  | cons e rest ih =>
    intro s dp hdp
    by_cases h1 : e.id ∈ s
    · have step2 : (process_go f b d m s (e :: rest)).2 = (process_go f b d m s rest).2 := by
        simp [process_go, h1]
      have step1 : (process_go f b d m s (e :: rest)).1 = (process_go f b d m s rest).1 := by
        simp [process_go, h1]
      rw [step2] at hdp
      rw [step1]
      exact ih s dp hdp
    · by_cases h2 : is_goal_type_c e = true
      · have step2 : (process_go f b d m s (e :: rest)).2 =
            ⟨e.id, generate_goal_message d m e,
              send_telegram_message f b (generate_goal_message d m e)⟩ ::
              (process_go f b d m (insert e.id s) rest).2 := by
          simp [process_go, h1, h2]
        have step1 : (process_go f b d m s (e :: rest)).1 =
            (process_go f b d m (insert e.id s) rest).1 := by
          simp [process_go, h1, h2]
        rw [step2] at hdp
        rw [step1]
        rcases List.mem_cons.mp hdp with rfl | hdp
        · exact process_go_mem_mono f b d m rest (insert e.id s) e.id
            (Finset.mem_insert_self _ _)
        · exact ih (insert e.id s) dp hdp
      · by_cases h3 : is_card_type_c e = true
        · have step2 : (process_go f b d m s (e :: rest)).2 =
              ⟨e.id, generate_card_message d m e
                  (if e.type_id == some 19 then "yellow"
                   else if e.type_id == some 21 then "second_yellow" else "red"),
                send_telegram_message f b
                  (generate_card_message d m e
                    (if e.type_id == some 19 then "yellow"
                     else if e.type_id == some 21 then "second_yellow" else "red"))⟩ ::
                (process_go f b d m (insert e.id s) rest).2 := by
            simp [process_go, h1, h2, h3]
          have step1 : (process_go f b d m s (e :: rest)).1 =
              (process_go f b d m (insert e.id s) rest).1 := by
            simp [process_go, h1, h2, h3]
          rw [step2] at hdp
          rw [step1]
          rcases List.mem_cons.mp hdp with rfl | hdp
          · exact process_go_mem_mono f b d m rest (insert e.id s) e.id
              (Finset.mem_insert_self _ _)
          · exact ih (insert e.id s) dp hdp
        · have step2 : (process_go f b d m s (e :: rest)).2 =
              (process_go f b d m s rest).2 := by
            simp [process_go, h1, h2, h3]
          have step1 : (process_go f b d m s (e :: rest)).1 =
              (process_go f b d m s rest).1 := by
            simp [process_go, h1, h2, h3]
          rw [step2] at hdp
          rw [step1]
          exact ih s dp hdp

theorem process_go_dispatch_exists (f : String → Bool) (b : Bool) (d : String)
    (m : MatchSnap) :
    ∀ (l : List CanonEvent) (s : Finset (Option Nat)) (c : CanonEvent),
      c ∈ l → (is_goal_type_c c || is_card_type_c c) = true → c.id ∉ s →
      ∃ dp ∈ (process_go f b d m s l).2, dp.eid = c.id := by
  intro l
  induction l with
  | nil => intro s c hc; simp at hc
  | cons e rest ih =>
    intro s c hc hgc hcs
    by_cases h1 : e.id ∈ s
    · have step2 : (process_go f b d m s (e :: rest)).2 = (process_go f b d m s rest).2 := by
        simp [process_go, h1]
      rw [step2]
      rcases List.mem_cons.mp hc with rfl | hc
      · exact absurd h1 hcs
      · exact ih s c hc hgc hcs
    · by_cases h2 : is_goal_type_c e = true
      · have step2 : (process_go f b d m s (e :: rest)).2 =
            ⟨e.id, generate_goal_message d m e,
              send_telegram_message f b (generate_goal_message d m e)⟩ ::
              (process_go f b d m (insert e.id s) rest).2 := by
          simp [process_go, h1, h2]
        rw [step2]
        by_cases hce : c.id = e.id
        · exact ⟨_, List.mem_cons_self _ _, hce.symm⟩
        · rcases List.mem_cons.mp hc with rfl | hc
          · exact absurd rfl hce
          · rcases ih (insert e.id s) c hc hgc
                (by simp [Finset.mem_insert, hce, hcs]) with ⟨dp, hdp, hid⟩
            exact ⟨dp, List.mem_cons_of_mem _ hdp, hid⟩
      · by_cases h3 : is_card_type_c e = true
        · have step2 : (process_go f b d m s (e :: rest)).2 =
              ⟨e.id, generate_card_message d m e
                  (if e.type_id == some 19 then "yellow"
                   else if e.type_id == some 21 then "second_yellow" else "red"),
                send_telegram_message f b
                  (generate_card_message d m e
                    (if e.type_id == some 19 then "yellow"
                     else if e.type_id == some 21 then "second_yellow" else "red"))⟩ ::
                (process_go f b d m (insert e.id s) rest).2 := by
            simp [process_go, h1, h2, h3]
          rw [step2]
          by_cases hce : c.id = e.id
          · exact ⟨_, List.mem_cons_self _ _, hce.symm⟩
          · rcases List.mem_cons.mp hc with rfl | hc
            · exact absurd rfl hce
            · rcases ih (insert e.id s) c hc hgc
                  (by simp [Finset.mem_insert, hce, hcs]) with ⟨dp, hdp, hid⟩
              exact ⟨dp, List.mem_cons_of_mem _ hdp, hid⟩
        · have step2 : (process_go f b d m s (e :: rest)).2 =
              (process_go f b d m s rest).2 := by
            simp [process_go, h1, h2, h3]
          rw [step2]
          rcases List.mem_cons.mp hc with rfl | hc
          · rw [Bool.or_eq_true] at hgc
            rcases hgc with hgc | hgc
            · exact absurd hgc h2
            · exact absurd hgc h3
          · exact ih s c hc hgc hcs

theorem process_go_all_processed_nil (f : String → Bool) (b : Bool) (d : String)
    (m : MatchSnap) :
    ∀ (l : List CanonEvent) (s : Finset (Option Nat)),
      (∀ e ∈ l, (is_goal_type_c e || is_card_type_c e) = true → e.id ∈ s) →
      (process_go f b d m s l).2 = [] := by
  intro l
  induction l with
  | nil => intro s _; simp [process_go]
  | cons e rest ih =>
    intro s hall
    by_cases h1 : e.id ∈ s
    · rw [show (process_go f b d m s (e :: rest)).2 = (process_go f b d m s rest).2 by
        simp [process_go, h1]]
      exact ih s (fun e2 he2 => hall e2 (List.mem_cons_of_mem _ he2))
    · by_cases h2 : is_goal_type_c e = true
      · exact absurd (hall e (List.mem_cons_self _ _) (by simp [h2])) h1
      · by_cases h3 : is_card_type_c e = true
        · exact absurd (hall e (List.mem_cons_self _ _) (by simp [h3])) h1
        · rw [show (process_go f b d m s (e :: rest)).2 = (process_go f b d m s rest).2 by
            simp [process_go, h1, h2, h3]]
          exact ih s (fun e2 he2 => hall e2 (List.mem_cons_of_mem _ he2))

theorem process_go_countP_le (f : String → Bool) (b : Bool) (d : String)
    (m : MatchSnap) :
    ∀ (l : List CanonEvent) (s : Finset (Option Nat)) (i : Option Nat),
      (process_go f b d m s l).2.countP (fun dp => dp.eid == i) ≤
        if i ∈ s then 0 else 1 := by
  intro l
  induction l with
  | nil =>
    intro s i
    split <;> simp [process_go]
  | cons e rest ih =>
    intro s i
    by_cases h1 : e.id ∈ s
    · rw [show (process_go f b d m s (e :: rest)).2 = (process_go f b d m s rest).2 by
        simp [process_go, h1]]
      exact ih s i
    · by_cases h2 : is_goal_type_c e = true
      · rw [show (process_go f b d m s (e :: rest)).2 =
            ⟨e.id, generate_goal_message d m e,
              send_telegram_message f b (generate_goal_message d m e)⟩ ::
              (process_go f b d m (insert e.id s) rest).2 by
          simp [process_go, h1, h2]]
        rw [List.countP_cons]
        have htail := ih (insert e.id s) i
        by_cases hei : e.id = i
        · subst hei
          rw [if_pos (Finset.mem_insert_self _ _)] at htail
          rw [if_neg h1]
          simp only [beq_self_eq_true, if_true]
          omega
        · have hins : (i ∈ insert e.id s) ↔ (i ∈ s) := by
            simp [Finset.mem_insert]
            intro hc
            exact absurd hc.symm hei
          have heq : (Dispatch.eid ⟨e.id, generate_goal_message d m e,
              send_telegram_message f b (generate_goal_message d m e)⟩ == i) = false := by
            simpa using hei
          rw [heq]
          simp only [Bool.false_eq_true, if_false]
          by_cases his : i ∈ s
          · rw [if_pos his]
            rw [if_pos (hins.mpr his)] at htail
            omega
          · rw [if_neg his]
            rw [if_neg (fun hc => his (hins.mp hc))] at htail
            omega
      · by_cases h3 : is_card_type_c e = true
        · rw [show (process_go f b d m s (e :: rest)).2 =
              ⟨e.id, generate_card_message d m e
                  (if e.type_id == some 19 then "yellow"
                   else if e.type_id == some 21 then "second_yellow" else "red"),
                send_telegram_message f b
                  (generate_card_message d m e
                    (if e.type_id == some 19 then "yellow"
                     else if e.type_id == some 21 then "second_yellow" else "red"))⟩ ::
                (process_go f b d m (insert e.id s) rest).2 by
            simp [process_go, h1, h2, h3]]
          rw [List.countP_cons]
          have htail := ih (insert e.id s) i
          by_cases hei : e.id = i
          · subst hei
            rw [if_pos (Finset.mem_insert_self _ _)] at htail
            rw [if_neg h1]
            simp only [beq_self_eq_true, if_true]
            omega
          · have hins : (i ∈ insert e.id s) ↔ (i ∈ s) := by
              simp [Finset.mem_insert]
              intro hc
              exact absurd hc.symm hei
            have heq : ((⟨e.id, generate_card_message d m e
                  (if e.type_id == some 19 then "yellow"
                   else if e.type_id == some 21 then "second_yellow" else "red"),
                send_telegram_message f b
                  (generate_card_message d m e
                    (if e.type_id == some 19 then "yellow"
                     else if e.type_id == some 21 then "second_yellow" else "red"))⟩ :
                Dispatch).eid == i) = false := by
              simpa using hei
            rw [heq]
            simp only [Bool.false_eq_true, if_false]
            by_cases his : i ∈ s
            · rw [if_pos his]
              rw [if_pos (hins.mpr his)] at htail
              omega
            · rw [if_neg his]
              rw [if_neg (fun hc => his (hins.mp hc))] at htail
              omega
        · rw [show (process_go f b d m s (e :: rest)).2 = (process_go f b d m s rest).2 by
            simp [process_go, h1, h2, h3]]
          exact ih s i

theorem process_go_oracle_indep (f1 f2 : String → Bool) (b : Bool) (d : String)
    (m : MatchSnap) :
    ∀ (l : List CanonEvent) (s : Finset (Option Nat)),
      (process_go f1 b d m s l).1 = (process_go f2 b d m s l).1 ∧
        (process_go f1 b d m s l).2.map (fun dp => (dp.eid, dp.message)) =
          (process_go f2 b d m s l).2.map (fun dp => (dp.eid, dp.message)) := by
  intro l
  induction l with
  | nil => intro s; simp [process_go]
  | cons e rest ih =>
    intro s
    by_cases h1 : e.id ∈ s
    · simpa [process_go, h1] using ih s
    · by_cases h2 : is_goal_type_c e = true
      · have hh := ih (insert e.id s)
        constructor
        · simpa [process_go, h1, h2] using hh.1
        · simpa [process_go, h1, h2] using hh.2
      · by_cases h3 : is_card_type_c e = true
        · have hh := ih (insert e.id s)
          constructor
          · simpa [process_go, h1, h2, h3] using hh.1
          · simpa [process_go, h1, h2, h3] using hh.2
        · simpa [process_go, h1, h2, h3] using ih s

theorem run_snapshots_mem_mono (f : String → Bool) (b : Bool) (d : String) :
    ∀ (ms : List MatchSnap) (s : Finset (Option Nat)) (x : Option Nat),
      x ∈ s → x ∈ (run_snapshots f b d ms s).1 := by
  intro ms
  induction ms with
  | nil => intro s x hx; simpa [run_snapshots] using hx
  | cons m rest ih =>
    intro s x hx
    have h1 : x ∈ (process_match_events f b d s m).1 :=
      process_go_mem_mono f b d m (extract_events m) s x hx
    simpa [run_snapshots] using ih (process_match_events f b d s m).1 x h1

theorem run_snapshots_countP_le (f : String → Bool) (b : Bool) (d : String) :
    ∀ (ms : List MatchSnap) (s : Finset (Option Nat)) (i : Option Nat),
      (run_snapshots f b d ms s).2.countP (fun dp => dp.eid == i) ≤
        if i ∈ s then 0 else 1 := by
  intro ms
  induction ms with
  | nil =>
    intro s i
    split <;> simp [run_snapshots]
  | cons m rest ih =>
    intro s i
    have step : (run_snapshots f b d (m :: rest) s).2 =
        (process_match_events f b d s m).2 ++
          (run_snapshots f b d rest (process_match_events f b d s m).1).2 := by
      simp [run_snapshots]
    rw [step, List.countP_append]
    have hc1 : (process_match_events f b d s m).2.countP (fun dp => dp.eid == i) ≤
        if i ∈ s then 0 else 1 := process_go_countP_le f b d m (extract_events m) s i
    have hc2 := ih (process_match_events f b d s m).1 i
    by_cases his : i ∈ s
    · rw [if_pos his] at hc1 ⊢
      have hin1 : i ∈ (process_match_events f b d s m).1 :=
        process_go_mem_mono f b d m (extract_events m) s i his
      rw [if_pos hin1] at hc2
      omega
    · rw [if_neg his] at hc1 ⊢
      by_cases hin1 : i ∈ (process_match_events f b d s m).1
      · rw [if_pos hin1] at hc2
        omega
      · have hz : ((process_match_events f b d s m).2.countP (fun dp => dp.eid == i)) = 0 := by
          rw [List.countP_eq_zero]
          intro dp hdp
          have hmem : dp.eid ∈ (process_match_events f b d s m).1 :=
            process_go_dispatch_mem_final f b d m (extract_events m) s dp hdp
          simp only [beq_iff_eq]
          intro hc
          exact hin1 (hc ▸ hmem)
        rw [if_neg hin1] at hc2
        omega

/-- Concrete snapshot for the void-filtering witness: one disallowed goal
event (identifier 7) and one live goal event (identifier 8). -/
def c5Match : MatchSnap :=
  { id := some 300
    participants :=
      [{ id := some 1, name := "Alpha", location := some "home", score := none },
       { id := some 2, name := "Beta", location := some "away", score := none }]
    events :=
      [{ id := some 7, type_id := some 14, minute := some 20, extra_minute := none,
         result := some "Disallowed", team_id := some 1, participant_id := none,
         location := none, player_id := none, player_name := some "Px",
         team_name := none },
       { id := some 8, type_id := some 14, minute := some 25, extra_minute := none,
         result := none, team_id := some 2, participant_id := none,
         location := none, player_id := none, player_name := some "Py",
         team_name := none }]
    lineups := []
    state := some { minute := some 30, added_time := none, period := some "1H",
                    status := some "LIVE" }
    scores := []
    league := some "Liga" }

/-! ## Claim theorems -/

/-- C1: exactly-once notification (deduplication).  Across any sequence of
processed snapshots sharing the `processed_events` set, at most one dispatch
is ever keyed on a given sub-event identifier, and none at all once the
identifier is in the set — and processing the identical snapshot twice in a
row yields an empty dispatch list on the second pass. -/
theorem dedup_exactly_once (f : String → Bool) (b : Bool) (d : String)
    (s : Finset (Option Nat)) (ms : List MatchSnap) (i : Option Nat)
    (m : MatchSnap) :
    (run_snapshots f b d ms s).2.countP (fun dp => dp.eid == i) ≤
        (if i ∈ s then 0 else 1) ∧
      (process_match_events f b d (process_match_events f b d s m).1 m).2 = [] := by
  constructor
  · exact run_snapshots_countP_le f b d ms s i
  · apply process_go_all_processed_nil
    intro e he hgc
    exact (process_go_mem_final_iff f b d m (extract_events m) s e.id).mpr
      (Or.inr ⟨e, he, hgc, rfl⟩)

/-- C8: at-most-once dispatch policy.  The channel send is absorbed inside
`send_telegram_message`, so the notified set and the keyed message list are
identical whatever the transport does (`f1` vs `f2` range over arbitrary
failure behaviours), and every dispatched identifier is in the notified set
afterwards — a failed dispatch is lost, never retried. -/
theorem dispatch_failure_still_marked (f1 f2 : String → Bool) (b : Bool)
    (d : String) (s : Finset (Option Nat)) (m : MatchSnap) :
    (process_match_events f1 b d s m).1 = (process_match_events f2 b d s m).1 ∧
      (process_match_events f1 b d s m).2.map (fun dp => (dp.eid, dp.message)) =
        (process_match_events f2 b d s m).2.map (fun dp => (dp.eid, dp.message)) ∧
      ∀ dp ∈ (process_match_events f1 b d s m).2,
        dp.eid ∈ (process_match_events f1 b d s m).1 :=
  ⟨(process_go_oracle_indep f1 f2 b d m (extract_events m) s).1,
    (process_go_oracle_indep f1 f2 b d m (extract_events m) s).2,
    fun dp hdp => process_go_dispatch_mem_final f1 b d m (extract_events m) s dp hdp⟩

/-- C5: void filtering.  When every raw sub-event carrying identifier `i` has
a void outcome tag, no canonical event has identifier `i`, no dispatch is
keyed on `i`, and `i` is in the notified set after processing only if it was
there before. -/
theorem void_event_never_notified (f : String → Bool) (b : Bool) (d : String)
    (s : Finset (Option Nat)) (m : MatchSnap) (i : Option Nat)
    (h : ∀ e ∈ m.events, e.id = i → is_void e = true) :
    (∀ c ∈ extract_events m, c.id ≠ i) ∧
      (∀ dp ∈ (process_match_events f b d s m).2, dp.eid ≠ i) ∧
      (i ∈ (process_match_events f b d s m).1 ↔ i ∈ s) := by
  have hext : ∀ c ∈ extract_events m, c.id ≠ i := by
    intro c hc
    unfold extract_events at hc
    simp only [List.mem_map, List.mem_filter] at hc
    rcases hc with ⟨e, ⟨he, hnv⟩, rfl⟩
    simp only [canon_of]
    intro hci
    have hv := h e he hci
    rw [hv] at hnv
    cases hnv
  refine ⟨hext, ?_, ?_⟩
  · intro dp hdp
    rcases process_go_dispatch_from f b d m (extract_events m) s dp hdp with ⟨c, hc, hid⟩
    rw [hid]
    exact hext c hc
  · unfold process_match_events
    rw [process_go_mem_final_iff f b d m (extract_events m) s i]
    constructor
    · rintro (hs | ⟨c, hc, _, hci⟩)
      · exact hs
      · exact absurd hci (hext c hc)
    · exact Or.inl

/-- Witness for C5: a match whose only event with identifier 7 is disallowed;
identifier 7 never surfaces and the set is unchanged. -/
theorem void_event_never_notified_witness :
    (∀ e ∈ c5Match.events, e.id = some 7 → is_void e = true) ∧
      ((some 7 : Option Nat) ∈
          (process_match_events (fun _ => false) true "d" ∅ c5Match).1 ↔
        (some 7 : Option Nat) ∈ (∅ : Finset (Option Nat))) :=
  ⟨by decide,
    (void_event_never_notified (fun _ => false) true "d" ∅ c5Match (some 7)
      (by decide)).2.2⟩

theorem dGet_dErase {K V : Type} [DecidableEq K] (m : List (K × V)) (k : K) :
    dGet (dErase m k) k = none := by
  have hf : (dErase m k).find? (fun kv => kv.1 = k) = none := by
    rw [List.find?_eq_none]
    intro x hx
    rcases List.mem_filter.mp hx with ⟨_, hpx⟩
    simpa using hpx
  unfold dGet
  rw [hf]
  rfl

/-- C10: the notified-event state is one process-wide set.  (i) An identifier
already in the shared set after one match's processing is never dispatched
while processing a different match afterwards; (ii) a goal/card canonical
event whose identifier is not yet in the set does get dispatched by the first
match that carries it; (iii) the terminal-status cleanup removes from the
shared set exactly the identifiers present in the final snapshot's raw event
collection — an identifier notified earlier but absent from that snapshot
stays in the set. -/
theorem shared_dedup_set_claims (f : String → Bool) (b : Bool) (d : String) :
    (∀ (s : Finset (Option Nat)) (ma mb : MatchSnap) (i : Option Nat),
        i ∈ (process_match_events f b d s ma).1 →
        ∀ dp ∈ (process_match_events f b d (process_match_events f b d s ma).1 mb).2,
          dp.eid ≠ i) ∧
      (∀ (s : Finset (Option Nat)) (ma : MatchSnap) (c : CanonEvent),
        c ∈ extract_events ma → (is_goal_type_c c || is_card_type_c c) = true →
        c.id ∉ s → ∃ dp ∈ (process_match_events f b d s ma).2, dp.eid = c.id) ∧
      (∀ (m : MatchSnap) (s : Finset (Option Nat)) (ls : LastSent) (i : Option Nat),
        TERMINAL_STATUSES.contains (status_of m) = true →
        (i ∈ (cleanup_finished [m] s ls).1 ↔
          i ∈ s ∧ i ∉ m.events.map RawEvent.id)) := by
  refine ⟨?_, ?_, ?_⟩
  · intro s ma mb i hi dp hdp
    intro hc
    exact process_go_dispatch_not_mem f b d mb (extract_events mb)
      (process_match_events f b d s ma).1 dp hdp (hc ▸ hi)
  · intro s ma c hc hgc hcs
    exact process_go_dispatch_exists f b d ma (extract_events ma) s c hc hgc hcs
  · intro m s ls i hterm
    have hmem : status_of m ∈ TERMINAL_STATUSES := by simpa using hterm
    simp [cleanup_finished, hmem, Finset.mem_sdiff, List.mem_toFinset]

/-- Concrete matches for the C10 witness: two different fixtures whose event
collections both carry the goal sub-event identifier 9. -/
def c10A : MatchSnap :=
  { id := some 401
    participants :=
      [{ id := some 1, name := "Alpha", location := some "home", score := none },
       { id := some 2, name := "Beta", location := some "away", score := none }]
    events :=
      [{ id := some 9, type_id := some 14, minute := some 10, extra_minute := none,
         result := none, team_id := some 1, participant_id := none, location := none,
         player_id := none, player_name := some "Pa", team_name := none }]
    lineups := []
    state := some { minute := some 10, added_time := none, period := some "1H",
                    status := some "LIVE" }
    scores := []
    league := none }

/-- Second fixture of the C10 witness, carrying the same identifier 9. -/
def c10B : MatchSnap :=
  { id := some 402
    participants :=
      [{ id := some 3, name := "Gamma", location := some "home", score := none },
       { id := some 4, name := "Delta", location := some "away", score := none }]
    events :=
      [{ id := some 9, type_id := some 14, minute := some 30, extra_minute := none,
         result := none, team_id := some 3, participant_id := none, location := none,
         player_id := none, player_name := some "Pb", team_name := none }]
    lineups := []
    state := some { minute := some 30, added_time := none, period := some "1H",
                    status := some "LIVE" }
    scores := []
    league := none }

/-- Witness for C10: after the first fixture notifies identifier 9, the
second fixture carrying the same identifier dispatches nothing for it. -/
theorem shared_dedup_set_claims_witness :
    (process_match_events (fun _ => false) true "d"
        (process_match_events (fun _ => false) true "d" ∅ c10A).1 c10B).2.countP
      (fun dp => dp.eid == some 9) = 0 := by
  rw [List.countP_eq_zero]
  intro dp hdp
  have hne := (shared_dedup_set_claims (fun _ => false) true "d").1 ∅ c10A c10B (some 9)
    (by decide) dp hdp
  simpa using hne

/-- Concrete match for the C6 counterexample: the live snapshot carries the
goal sub-event 100. -/
def c6Live : MatchSnap :=
  { id := some 500
    participants :=
      [{ id := some 1, name := "Alpha", location := some "home", score := none },
       { id := some 2, name := "Beta", location := some "away", score := none }]
    events :=
      [{ id := some 100, type_id := some 14, minute := some 10, extra_minute := none,
         result := none, team_id := some 1, participant_id := none, location := none,
         player_id := none, player_name := some "Pc", team_name := none }]
    lineups := []
    state := some { minute := some 10, added_time := none, period := some "1H",
                    status := some "INPLAY_1ST_HALF" }
    scores := []
    league := none }

/-- The same fixture's final snapshot: terminal status, but its event
collection no longer carries sub-event 100 (only 200). -/
def c6Final : MatchSnap :=
  { id := some 500
    participants :=
      [{ id := some 1, name := "Alpha", location := some "home", score := none },
       { id := some 2, name := "Beta", location := some "away", score := none }]
    events :=
      [{ id := some 200, type_id := some 14, minute := some 80, extra_minute := none,
         result := none, team_id := some 2, participant_id := none, location := none,
         player_id := none, player_name := some "Pd", team_name := none }]
    lineups := []
    state := some { minute := some 90, added_time := none, period := some "2H",
                    status := some "FT" }
    scores := []
    league := none }

/-- Counterexample to C6 as stated: identifier 100 was notified for match 500
in an earlier cycle, the final snapshot's status is terminal, yet after the
cleanup sweep identifier 100 is still tracked (only the final snapshot's own
identifiers were removed), so the notified state for the match was not
removed entirely. -/
theorem terminal_cleanup_keeps_stale_id_counterexample :
    some 100 ∈ (run_cycle (fun _ => false) true "d" [c6Live] ∅ []).1 ∧
      TERMINAL_STATUSES.contains (status_of c6Final) = true ∧
      some 100 ∈ (run_cycle (fun _ => false) true "d" [c6Final]
          (run_cycle (fun _ => false) true "d" [c6Live] ∅ []).1
          (run_cycle (fun _ => false) true "d" [c6Live] ∅ []).2.1).1 := by
  refine ⟨by decide, by decide, by decide⟩

/-- C6 amended: when a match's status is terminal, the cleanup sweep removes
from the notified set exactly the identifiers present in that (final)
snapshot's event collection — an identifier absent from it survives — and
pops the match's `last_sent` entry. -/
theorem terminal_cleanup_removes_final_ids (m : MatchSnap)
    (s : Finset (Option Nat)) (ls : LastSent) (i : Option Nat)
    (h : TERMINAL_STATUSES.contains (status_of m) = true) :
    (i ∈ (cleanup_finished [m] s ls).1 ↔ i ∈ s ∧ i ∉ m.events.map RawEvent.id) ∧
      dGet (cleanup_finished [m] s ls).2 m.id = none := by
  have hmem : status_of m ∈ TERMINAL_STATUSES := by simpa using h
  constructor
  · simp [cleanup_finished, hmem, Finset.mem_sdiff, List.mem_toFinset]
  · simp only [cleanup_finished]
    rw [if_pos h]
    exact dGet_dErase ls m.id

/-- Witness for C6 amended: sweeping the terminal final snapshot removes
identifier 200 (present in it), keeps identifier 100 (absent from it), and
pops the last-sent entry of match 500. -/
theorem terminal_cleanup_removes_final_ids_witness :
    (TERMINAL_STATUSES.contains (status_of c6Final) = true) ∧
      (some 100 ∈ (cleanup_finished [c6Final] {some 100, some 200}
          [(some 500, (1, 1))]).1 ↔
        some 100 ∈ ({some 100, some 200} : Finset (Option Nat)) ∧
          some 100 ∉ c6Final.events.map RawEvent.id) ∧
      dGet (cleanup_finished [c6Final] {some 100, some 200}
          [(some 500, (1, 1))]).2 c6Final.id = none :=
  ⟨by decide,
    (terminal_cleanup_removes_final_ids c6Final {some 100, some 200}
      [(some 500, (1, 1))] (some 100) (by decide)).1,
    (terminal_cleanup_removes_final_ids c6Final {some 100, some 200}
      [(some 500, (1, 1))] (some 100) (by decide)).2⟩

/-- The ordering key of a canonical event, as the claimed output ordering
reads it: the extraction output carries no `extra_minute` field, so the
extra-minute component is the `0` that `or 0` would produce there. -/
def canonKey (c : CanonEvent) : Nat × Nat × Nat :=
  (orZero c.minute, 0, orZero c.id)

/-- Concrete snapshot for the C2 counterexample: two valid goal events stored
in the collection in descending key order (minute 10 before minute 5). -/
def mC2 : MatchSnap :=
  { id := some 600
    participants :=
      [{ id := some 1, name := "Alpha", location := some "home", score := none },
       { id := some 2, name := "Beta", location := some "away", score := none }]
    events :=
      [{ id := some 2, type_id := some 14, minute := some 10, extra_minute := none,
         result := none, team_id := some 1, participant_id := none, location := none,
         player_id := none, player_name := some "Pe", team_name := none },
       { id := some 1, type_id := some 14, minute := some 5, extra_minute := none,
         result := none, team_id := some 2, participant_id := none, location := none,
         player_id := none, player_name := some "Pf", team_name := none }]
    lineups := []
    state := none
    scores := []
    league := none }

/-- Counterexample to C2 as stated: `extract_events` emits the canonical
events in the snapshot's collection order, here minutes [10, 5], which is not
ascending in the (minute, extra-minute, identifier) key (both events carry no
extra minute, so the key's middle component is 0 for both). -/
theorem extraction_not_sorted_counterexample :
    ((extract_events mC2).map (fun c => orZero c.minute) = [10, 5]) ∧
      ¬ List.Pairwise (fun c1 c2 => tLe (canonKey c1) (canonKey c2) = true)
        (extract_events mC2) := by
  constructor
  · decide
  · decide

/-- C2 amended: extraction does not sort; it emits one canonical event per
non-void raw sub-event in the snapshot collection's order.  The ascending
(minute, extra-minute, identifier) order is instead established inside the
progressive-score calculation, whose goal list is sorted under that key. -/
theorem extraction_preserves_source_order (m : MatchSnap) :
    ((extract_events m).map CanonEvent.id =
        (m.events.filter (fun e => !(is_void e))).map RawEvent.id) ∧
      (sorted_goal_events m).Pairwise evLe := by
  constructor
  · unfold extract_events
    rw [List.map_map]
    rfl
  · exact sorted_goal_events_pairwise m

/-- Raw goal event for the C4 counterexample: no team/participant identifier,
location tag `home`, and a player identifier that the lineup maps to the away
contestant. -/
def gC4 : RawEvent :=
  { id := some 9, type_id := some 14, minute := some 10, extra_minute := none,
    result := none, team_id := none, participant_id := none,
    location := some "home", player_id := some 5, player_name := some "Zed",
    team_name := none }

/-- Concrete snapshot for the C4 counterexample: Zed (player 5) is in the
away contestant's (Beta, id 2) lineup, while the event's location hint says
`home`. -/
def mC4 : MatchSnap :=
  { id := some 700
    participants :=
      [{ id := some 1, name := "Alpha", location := some "home", score := none },
       { id := some 2, name := "Beta", location := some "away", score := none }]
    events := [gC4]
    lineups :=
      [{ participant_id := some 2, participant_name := some "Beta",
         players := [{ name := some "Zed", id := some 5 }] }]
    state := some { minute := some 10, added_time := none, period := some "1H",
                    status := some "LIVE" }
    scores := []
    league := some "Liga" }

/-- Counterexample to C4 as stated: on the same raw event, extraction's
attribution resolves via the player-identifier tier to the away contestant
Beta, while the progressive-score side resolution — which tries the location
tag before the player identifier — credits the goal to the home side,
so the two components do not follow the same priority order. -/
theorem attribution_order_differs_counterexample :
    ((extract_events mC4).map CanonEvent.team_name = ["Beta"]) ∧
      (mC4.participants.find? (fun p => p.location == some "away")).map
          Participant.name = some "Beta" ∧
      calc_scored_side mC4 gC4 = some "home" ∧
      calculate_progressive_score mC4 (some 10) none (some 9) = (1, 0) := by
  refine ⟨by decide, by decide, by decide, by decide⟩

/-- C4 amended: (i) in extraction, when the team/participant-identifier hint
is absent and the player identifier resolves through the lineup map to a
contestant, that contestant's name is the attributed team — the lineup tier
wins over any location, player-name or free-text hint; (ii) in the
progressive-score side resolution the order differs: an absent
team/participant identifier plus a `home` location tag resolves to the home
side no matter what the player identifier would say; (iii) that resolution
has no free-text tier: with no identifier, location, player-identifier or
player-name hint it yields no side even if the event carries a free-text
team name. -/
theorem attribution_priority_orders :
    (∀ (ps : List Participant) (ptm : List (String × String))
        (ptid : List (Nat × Nat)) (e : RawEvent) (t : Nat) (p : Participant),
      truthyN (pyOrN e.team_id e.participant_id) = false →
      truthyN e.player_id = true →
      dGet ptid (e.player_id.getD 0) = some t →
      ps.find? (fun q => q.id == some t) = some p →
      p.name ≠ "Ismeretlen" →
      resolve_team_name ps ptm ptid e = p.name) ∧
      (∀ (m : MatchSnap) (g : RawEvent),
        truthyN (pyOrN g.team_id g.participant_id) = false →
        g.location = some "home" →
        calc_scored_side m g = some "home") ∧
      (∀ (m : MatchSnap) (g : RawEvent),
        truthyN (pyOrN g.team_id g.participant_id) = false →
        g.location = none → g.player_id = none → g.player_name = none →
        calc_scored_side m g = none) := by
  refine ⟨?_, ?_, ?_⟩
  · intro ps ptm ptid e t p htid hpid hmap hfind hname
    simp [resolve_team_name, htid, hpid, hmap, hfind, hname]
  · intro m g htid hloc
    simp [calc_scored_side, htid, hloc]
  · intro m g htid hloc hpid hpn
    have h2 : truthyN g.player_id = false := by rw [hpid]; rfl
    simp [calc_scored_side, htid, hloc, h2, hpn]

/-- Witness for C4 amended: part (i) on the counterexample snapshot resolves
Beta; parts (ii) and (iii) on concrete events resolve the home side and no
side respectively. -/
theorem attribution_priority_orders_witness :
    (resolve_team_name mC4.participants (get_player_team_mapping mC4).1
        (get_player_team_mapping mC4).2 gC4 = "Beta") ∧
      calc_scored_side mC4 gC4 = some "home" ∧
      calc_scored_side mC4
        { id := some 11, type_id := some 14, minute := some 12,
          extra_minute := none, result := none, team_id := none,
          participant_id := none, location := none, player_id := none,
          player_name := none, team_name := some "Gamma FC" } = none :=
  ⟨by
    have hh := attribution_priority_orders.1 mC4.participants
      (get_player_team_mapping mC4).1 (get_player_team_mapping mC4).2 gC4 2
      { id := some 2, name := "Beta", location := some "away", score := none }
      (by decide) (by decide) (by decide) (by decide) (by decide)
    simpa using hh,
   attribution_priority_orders.2.1 mC4 gC4 (by decide) (by decide),
   attribution_priority_orders.2.2 mC4 _ (by decide) (by decide) (by decide)
     (by decide)⟩

/-- Counterexample to C9 as stated: in the second half at elapsed minute
exactly 90 with stoppage minute 3 — second-half stoppage time with the
elapsed minute "at least 90" — the rendered line is the plain minute, not the
claimed "90+3" form (the code requires the minute to be strictly greater
than 90). -/
theorem display_minute_90_boundary_counterexample :
    display_minute { minute := some 90, extra_minute := some 3 }
        (some { minute := none, added_time := none, period := some "2H",
                status := none }) = "90. perc" ∧
      display_minute { minute := some 90, extra_minute := some 3 }
        (some { minute := none, added_time := none, period := some "2H",
                status := none }) ≠ "90+3. perc" := by
  refine ⟨by decide, by decide⟩

/-- C9 amended: the rendered minute line is the plain minute for first-half
minutes outside stoppage; "45+N" in the first half once the minute is at
least 45 with positive stoppage N; "90+N" in the second half only when the
minute strictly exceeds 90 with positive stoppage N (at exactly 90 the plain
minute is shown); "ET "-prefixed for extra-time periods; the fixed literal
"PEN" for penalty-shootout periods; and the plain minute for any other
period tag. -/
theorem display_minute_formatting (e : MinuteEvent) (st : Option MatchState) :
    (period_of st = "1H" ∨ period_of st = "H1" →
      display_minute e st =
        if 45 ≤ eff_minute e st && 0 < eff_added e st
        then "45+" ++ toString (eff_added e st) ++ ". perc"
        else toString (eff_minute e st) ++ ". perc") ∧
      (period_of st = "2H" ∨ period_of st = "H2" →
        display_minute e st =
          if 90 < eff_minute e st && 0 < eff_added e st
          then "90+" ++ toString (eff_added e st) ++ ". perc"
          else toString (eff_minute e st) ++ ". perc") ∧
      (period_of st = "ET" ∨ period_of st = "AET" ∨ period_of st = "E1" ∨
          period_of st = "E2" →
        display_minute e st = "ET " ++ toString (eff_minute e st) ++ ". perc") ∧
      (period_of st = "PEN" ∨ period_of st = "PSO" →
        display_minute e st = "PEN") ∧
      (period_of st ∉ (["1H", "H1", "2H", "H2", "ET", "AET", "E1", "E2",
          "PEN", "PSO"] : List String) →
        display_minute e st = toString (eff_minute e st) ++ ". perc") := by
  refine ⟨?_, ?_, ?_, ?_, ?_⟩
  · rintro (h | h) <;> simp [display_minute, h]
  · rintro (h | h) <;> simp [display_minute, h]
  · rintro (h | h | h | h) <;> simp [display_minute, h]
  · rintro (h | h) <;> simp [display_minute, h]
  · intro h
    simp only [List.mem_cons, List.not_mem_nil, or_false, not_or] at h
    obtain ⟨h1, h2, h3, h4, h5, h6, h7, h8, h9, h10⟩ := h
    simp [display_minute, h1, h2, h3, h4, h5, h6, h7, h8, h9, h10]

/-- A clock state carrying only a period tag, for concrete inputs. -/
def periodState (p : String) : Option MatchState :=
  some { minute := none, added_time := none, period := some p, status := none }

/-- Witness for C9 amended: concrete renderings in each period class —
first-half stoppage at 45, second-half stoppage at 91, extra time, and
penalties. -/
theorem display_minute_formatting_witness :
    (period_of (periodState "1H") = "1H" ∨ period_of (periodState "1H") = "H1") ∧
      display_minute ⟨some 45, some 2⟩ (periodState "1H") = "45+2. perc" ∧
      display_minute ⟨some 91, some 4⟩ (periodState "2h") = "90+4. perc" ∧
      display_minute ⟨some 105, none⟩ (periodState "ET") = "ET 105. perc" ∧
      display_minute ⟨some 120, none⟩ (periodState "PSO") = "PEN" :=
  ⟨Or.inl (by decide),
   by
    rw [(display_minute_formatting ⟨some 45, some 2⟩ (periodState "1H")).1
      (Or.inl (by decide))]
    decide,
   by
    rw [(display_minute_formatting ⟨some 91, some 4⟩ (periodState "2h")).2.1
      (Or.inl (by decide))]
    decide,
   by
    rw [(display_minute_formatting ⟨some 105, none⟩ (periodState "ET")).2.2.1
      (Or.inl (by decide))]
    decide,
   (display_minute_formatting ⟨some 120, none⟩ (periodState "PSO")).2.2.2.1
     (Or.inr (by decide))⟩

/-- Modelled from the spec: the backoff the spec prescribes for attempt
`k` (0-based; the spec's attempt number is `k + 1`): a rate-limited attempt
waits `0.8 * (k + 1)`; another failure waits `0.5 * (k + 1)` when a retry
follows (no wait after the final attempt); a successful attempt waits
nothing. -/
def spec_wait (k : Nat) : AttemptOutcome → List ℚ
  | .rateLimited _ => [(8 : ℚ) / 10 * (k + 1)]
  | .fail => if k + 1 < 3 then [(5 : ℚ) / 10 * (k + 1)] else []
  | .ok _ => []

/-- Counterexample to C7 as stated: when every attempt is rate-limited and
the rate-limit response body parses with a data list, exhausting the retries
does not surface a failure with an empty match set — the loop falls through
and the code parses the final rate-limited response, returning its matches. -/
theorem fetch_rate_limit_fallthrough_counterexample :
    (get_live_matches (fun _ => .rateLimited (some [42]))).attempts = 3 ∧
      (get_live_matches (fun _ => .rateLimited (some [42]))).data = [42] ∧
      (get_live_matches (fun _ => .rateLimited (some [42]))).caught = false := by
  refine ⟨by decide, by decide, by decide⟩

/-- C7 amended: the fetch makes at most 3 request attempts per call; the
sleeps performed are exactly the spec's backoff schedule over the attempted
outcomes (0.8·n after a rate-limited attempt n, 0.5·n after another failed
attempt n that is retried); and when every attempt fails with a transport
error the call raises nothing past the boundary — the outer handler catches
the re-raised error and returns the empty match set.  (After three
rate-limited attempts, however, the code falls through and parses the final
rate-limited response instead of surfacing a failure.) -/
theorem fetch_bounded_retry (oracle : Nat → AttemptOutcome) :
    (get_live_matches oracle).attempts ≤ 3 ∧
      (get_live_matches oracle).sleeps =
        (List.range (get_live_matches oracle).attempts).flatMap
          (fun k => spec_wait k (oracle k)) ∧
      ((∀ k, k < 3 → oracle k = .fail) →
        (get_live_matches oracle).data = [] ∧
          (get_live_matches oracle).caught = true) := by
  rcases h0 : oracle 0 with b0 | b0 | _ <;>
    rcases h1 : oracle 1 with b1 | b1 | _ <;>
      rcases h2 : oracle 2 with b2 | b2 | _ <;>
        refine ⟨?_, ?_, ?_⟩ <;>
          first
            | (simp [get_live_matches, fetch_attempt2, fetch_attempt3,
                fetch_parse, spec_wait, h0, h1, h2, List.range_succ]
               try norm_num
               done)
            | (intro hall
               have hf0 := hall 0 (by omega)
               have hf1 := hall 1 (by omega)
               have hf2 := hall 2 (by omega)
               simp [get_live_matches, fetch_attempt2, fetch_attempt3,
                 fetch_parse, hf0, hf1, hf2])

/-- Witness for C7 amended: with every attempt failing, the call returns the
empty match set and the outer handler caught the error. -/
theorem fetch_bounded_retry_witness :
    (get_live_matches (fun _ => .fail)).data = [] ∧
      (get_live_matches (fun _ => .fail)).caught = true :=
  (fetch_bounded_retry (fun _ => .fail)).2.2 (fun _ _ => rfl)


